import Mathlib

/-!
Shallow embedding of the DOE-Calculator estimation engine (src/app.py).

The Quantity Model (`required_footage`, `posts_needed`, `rolls_needed`),
the cost helpers (`materials_breakdown`, `fuel_cost`, `get_labor_per_day`)
and the pricing callback `compute` (lines 563-732 of src/app.py) are
translated to total functions over `ℚ`.  Python's `int(x)` truncation
toward zero is modelled by `pyInt`; the `x or default` idiom on numbers
(which replaces `0` and `None` by the default) is modelled by explicit
`if x = 0 then default else x` tests; the external pricebook is a
function `String → Option ℚ`; the per-row `uuid.uuid4()` calls are
modelled by an explicit supply `ℕ → String` consumed in emission order.
-/

namespace DOE

/-- `SALES_TAX = 0.0825` (src/app.py line 241). -/
def SALES_TAX : ℚ := 825 / 10000

/-- `PROD_LF_PER_DAY = 2500` (src/app.py line 242). -/
def PROD_LF_PER_DAY : ℚ := 2500

/-- Python `int(q)`: truncation toward zero. -/
def pyInt (q : ℚ) : ℤ := if q < 0 then ⌈q⌉ else ⌊q⌋

/-- `required_footage(total_lf, waste_pct)` (src/app.py 244-245):
`max(0.0, float(total_lf or 0)) * (1.0 + max(0.0, float(waste_pct or 0))/100.0)`. -/
def required_footage (total_lf waste_pct : ℚ) : ℚ :=
  max 0 total_lf * (1 + max 0 waste_pct / 100)

/-- `posts_needed(required_ft, spacing_ft)` (src/app.py 247-249):
`rf = max(0.0, required_ft); sp = max(1, spacing_ft or 1);
ceil(rf/sp) + (1 if rf>0 else 0)`.  (`sp or 1` maps `0` to `1`, which
`max 1` already does.) -/
def posts_needed (required_ft : ℚ) (spacing_ft : ℤ) : ℤ :=
  let rf := max 0 required_ft
  let sp := max 1 spacing_ft
  ⌈rf / (sp : ℚ)⌉ + (if 0 < rf then 1 else 0)

/-- `rolls_needed(required_ft, roll_len=100)` (src/app.py 251-253):
`rf = max(0.0, required_ft); rl = max(1, roll_len or 100);
ceil(rf/rl) if rf>0 else 0`. -/
def rolls_needed (required_ft : ℚ) (roll_len : ℤ) : ℤ :=
  let rf := max 0 required_ft
  let rl := max 1 (if roll_len = 0 then 100 else roll_len)
  if 0 < rf then ⌈rf / (rl : ℚ)⌉ else 0

/-- `get_labor_per_day()` (src/app.py 255): `554.34`. -/
def get_labor_per_day : ℚ := 55434 / 100

/-- `fuel_cost(days, any_work)` (src/app.py 256):
`(65.0*max(0,int(days or 0))) if any_work else 0.0`. -/
def fuel_cost (days : ℤ) (any_work : Bool) : ℚ :=
  if any_work then 65 * ((max 0 days : ℤ) : ℚ) else 0

/-- Result tuple of `materials_breakdown` (fabric, hardware, subtotal, tax). -/
structure MatBreakdown where
  fabric_cost : ℚ
  hardware_cost : ℚ
  subtotal : ℚ
  tax : ℚ
deriving DecidableEq, Repr

/-- `materials_breakdown(required_ft, cost_per_lf, posts_count, post_unit_cost, tax_rate)`
(src/app.py 258-263). -/
def materials_breakdown (required_ft cost_per_lf : ℚ) (posts_count : ℤ)
    (post_unit_cost : ℚ) (tax_rate : ℚ) : MatBreakdown :=
  let fabric := max 0 required_ft * max 0 cost_per_lf
  let hardware := ((max 0 posts_count : ℤ) : ℚ) * max 0 post_unit_cost
  let subtotal := fabric + hardware
  { fabric_cost := fabric, hardware_cost := hardware,
    subtotal := subtotal, tax := subtotal * tax_rate }

/-! SKU constants (src/app.py 228-239). -/

def FABRIC_SKU_14G : String := "silt-fence-14g"

def FABRIC_SKU_125G : String := "silt-fence-12g5"

def FABRIC_SKU_UNREINF : String := "silt-fence-unreinforced"

def POST_SKU_T_POST_4FT : String := "t-post-4ft"

def POST_SKU_TXDOT_T_POST_4FT : String := "tx-dot-t-post-4-ft"

def POST_SKU_T_POST_6FT : String := "t-post-6ft"

def POST_SKU_WOOD_STAKE_4FT : String := "wood-stake-4ft"

def FABRIC_SKU_ORANGE_LIGHT : String := "orange-fence-light-duty"

def FABRIC_SKU_ORANGE_HEAVY : String := "orange-fence-heavy-duty"

def CAP_SKU_OSHA : String := "cap-osha"

def CAP_SKU_PLASTIC : String := "cap-plastic"

/-- `cat` value: `"Silt Fence"` or anything else (the orange branch). -/
inductive Category
  | siltFence
  | orangeFence
deriving DecidableEq, Repr

/-- `sf_gauge` values `"Unreinforced"`, `"14 ..."` (startswith "14"), else 12.5. -/
inductive SfGauge
  | gauge14
  | gauge12_5
  | unreinforced
deriving DecidableEq, Repr

/-- `orange_duty` values (startswith "Light", else heavy). -/
inductive OrangeDuty
  | lightDuty
  | heavyDuty
deriving DecidableEq, Repr

/-- `sf_cap_type` values `"OSHA"` / `"PLASTIC"`. -/
inductive CapType
  | osha
  | plastic
deriving DecidableEq, Repr

/-- The input snapshot handed to `compute` (src/app.py 563-565), after the
UI checklists are read as booleans (`"caps" in sf_caps` etc.). -/
structure JobConfig where
  cat : Category
  total_lf : ℚ
  waste_pct : ℚ
  sf_gauge : SfGauge
  sf_spacing : ℤ
  sf_price_lf : ℚ
  sf_caps : Bool
  sf_cap_type : Option CapType
  sf_removal : Bool
  sf_remove_tax : Bool
  orange_duty : OrangeDuty
  orange_spacing : ℤ
  orange_price_lf : ℚ
  orange_removal : Bool
  orange_remove_tax : Bool
deriving DecidableEq, Repr

/-- Values chosen by the `if cat == "Silt Fence": ... else: ...` branch of
`compute` (src/app.py 574-600). -/
structure Selection where
  post_spacing : ℤ
  final_price_per_lf : ℚ
  include_caps : Bool
  cap_type : Option CapType
  remove_tax_flag : Bool
  fabric_sku : String
  fabric_default : ℚ
  post_sku : String
  post_default : ℚ
  removal_selected : Bool
deriving DecidableEq, Repr

/-- The category branch of `compute` (src/app.py 574-600).  `int(sf_spacing or 8)`,
`float(sf_price_lf or 2.50)` etc. replace a zero input by the default. -/
def select (c : JobConfig) : Selection :=
  match c.cat with
  | .siltFence =>
    let skus : String × ℚ × String × ℚ :=
      match c.sf_gauge with
      | .unreinforced => (FABRIC_SKU_UNREINF, 28/100, POST_SKU_WOOD_STAKE_4FT, 125/100)
      | .gauge14 => (FABRIC_SKU_14G, 32/100, POST_SKU_T_POST_4FT, 180/100)
      | .gauge12_5 => (FABRIC_SKU_125G, 38/100, POST_SKU_TXDOT_T_POST_4FT, 215/100)
    { post_spacing := if c.sf_spacing = 0 then 8 else c.sf_spacing
      final_price_per_lf := if c.sf_price_lf = 0 then 5/2 else c.sf_price_lf
      include_caps := c.sf_caps && decide (c.sf_gauge ≠ SfGauge.unreinforced)
      cap_type := c.sf_cap_type
      remove_tax_flag := c.sf_remove_tax
      fabric_sku := skus.1
      fabric_default := skus.2.1
      post_sku := skus.2.2.1
      post_default := skus.2.2.2
      removal_selected := c.sf_removal }
  | .orangeFence =>
    let skus : String × ℚ :=
      match c.orange_duty with
      | .lightDuty => (FABRIC_SKU_ORANGE_LIGHT, 30/100)
      | .heavyDuty => (FABRIC_SKU_ORANGE_HEAVY, 45/100)
    { post_spacing := if c.orange_spacing = 0 then 10 else c.orange_spacing
      final_price_per_lf := if c.orange_price_lf = 0 then 5/2 else c.orange_price_lf
      include_caps := false
      cap_type := none
      remove_tax_flag := c.orange_remove_tax
      fabric_sku := skus.1
      fabric_default := skus.2
      post_sku := POST_SKU_T_POST_6FT
      post_default := 225/100
      removal_selected := c.orange_removal }

/-- `pricebook.get_price(sku, default)`: the external lookup, returning the
caller-supplied default when the SKU does not resolve. -/
def get_price (ps : String → Option ℚ) (sku : String) (default : ℚ) : ℚ :=
  (ps sku).getD default

/-- `pricebook.get_price(sku, default) or default` (src/app.py 603-608):
Python's `or` additionally replaces a `0.0` result by the default. -/
def resolve_price (ps : String → Option ℚ) (sku : String) (default : ℚ) : ℚ :=
  let p := get_price ps sku default
  if p = 0 then default else p

/-- `total_lf = int(total_lf or 0)` (src/app.py 567). -/
def total_lf_i (c : JobConfig) : ℤ := pyInt c.total_lf

/-- `waste_pct = int(waste_pct or 0)` (src/app.py 568). -/
def waste_pct_i (c : JobConfig) : ℤ := pyInt c.waste_pct

/-- `cost_per_lf` (src/app.py 603). -/
def cost_per_lf (c : JobConfig) (ps : String → Option ℚ) : ℚ :=
  resolve_price ps (select c).fabric_sku (select c).fabric_default

/-- `post_unit_cost` (src/app.py 604). -/
def post_unit_cost (c : JobConfig) (ps : String → Option ℚ) : ℚ :=
  resolve_price ps (select c).post_sku (select c).post_default

/-- The guard `cat=="Silt Fence" and include_caps and cap_type`
(src/app.py 606 and 614). -/
def caps_on (c : JobConfig) : Bool :=
  decide (c.cat = Category.siltFence) && (select c).include_caps
    && (select c).cap_type.isSome

/-- `caps_unit_cost` (src/app.py 605-608): `0.0` unless the caps guard holds;
OSHA default 3.90, plastic default 1.05. -/
def caps_unit_cost (c : JobConfig) (ps : String → Option ℚ) : ℚ :=
  if caps_on c then
    match (select c).cap_type with
    | some CapType.osha => resolve_price ps CAP_SKU_OSHA (39/10)
    | some CapType.plastic => resolve_price ps CAP_SKU_PLASTIC (105/100)
    | none => 0
  else 0

/-- `req_ft = required_footage(total_lf, waste_pct)` (src/app.py 611), on the
truncated integers from lines 567-568. -/
def req_ft (c : JobConfig) : ℚ :=
  required_footage ((total_lf_i c : ℤ) : ℚ) ((waste_pct_i c : ℤ) : ℚ)

/-- `posts = posts_needed(req_ft, post_spacing)` (src/app.py 612). -/
def posts (c : JobConfig) : ℤ := posts_needed (req_ft c) (select c).post_spacing

/-- `rolls = rolls_needed(req_ft)` (src/app.py 613), roll length 100. -/
def rolls (c : JobConfig) : ℤ := rolls_needed (req_ft c) 100

/-- `caps_qty = posts if (cat=="Silt Fence" and include_caps and cap_type) else 0`
(src/app.py 614). -/
def caps_qty (c : JobConfig) : ℤ := if caps_on c then posts c else 0

/-- `caps_cost = caps_qty * caps_unit_cost` (src/app.py 615). -/
def caps_cost (c : JobConfig) (ps : String → Option ℚ) : ℚ :=
  (caps_qty c : ℚ) * caps_unit_cost c ps

/-- The `materials_breakdown` call of src/app.py 617. -/
def mat (c : JobConfig) (ps : String → Option ℚ) : MatBreakdown :=
  materials_breakdown (req_ft c) (cost_per_lf c ps) (posts c) (post_unit_cost c ps) SALES_TAX

/-- `mat_sub_all = mat_sub + caps_cost` (src/app.py 618). -/
def mat_sub_all (c : JobConfig) (ps : String → Option ℚ) : ℚ :=
  (mat c ps).subtotal + caps_cost c ps

/-- `tax_all = tax + caps_cost*SALES_TAX` (src/app.py 619). -/
def tax_all (c : JobConfig) (ps : String → Option ℚ) : ℚ :=
  (mat c ps).tax + caps_cost c ps * SALES_TAX

/-- `project_days = (req_ft/PROD_LF_PER_DAY) if req_ft>0 else 0.0` (src/app.py 621). -/
def project_days (c : JobConfig) : ℚ :=
  if 0 < req_ft c then req_ft c / PROD_LF_PER_DAY else 0

/-- `labor_cost = project_days*get_labor_per_day()` (src/app.py 622). -/
def labor_cost (c : JobConfig) : ℚ := project_days c * get_labor_per_day

/-- `billing_days = math.ceil(project_days) if req_ft>0 else 0` (src/app.py 623). -/
def billing_days (c : JobConfig) : ℤ :=
  if 0 < req_ft c then ⌈project_days c⌉ else 0

/-- `fuel = fuel_cost(billing_days, any_work=req_ft>0)` (src/app.py 624). -/
def fuel (c : JobConfig) : ℚ := fuel_cost (billing_days c) (decide (0 < req_ft c))

/-- The tier floor inside `_calc_removal` (src/app.py 630-636). -/
def removal_floor (rf : ℚ) : ℚ :=
  if rf < 800 then 115/100
  else if rf < 2000 then 90/100
  else if rf < 10000 then 90/100 + ((80/100 - 90/100) / (10000 - 2000)) * (rf - 2000)
  else 80/100

/-- `_calc_removal(req_ft, sell_per_lf)` (src/app.py 626-642), returning
`(unit, total)`. -/
def calc_removal (rf sell : ℚ) : ℚ × ℚ :=
  if rf ≤ 0 then (0, 0)
  else
    let base := sell * (40/100)
    let unit := max base (removal_floor rf)
    let total := unit * rf
    if total < 800 then (800 / rf, 800) else (unit, total)

/-- `removal_unit_lf, removal_total = _calc_removal(...) if removal_selected
else (0.0, 0.0)` (src/app.py 644). -/
def removal_pair (c : JobConfig) : ℚ × ℚ :=
  if (select c).removal_selected then
    calc_removal (req_ft c) (select c).final_price_per_lf
  else (0, 0)

/-- `removal_unit_lf` component of src/app.py 644. -/
def removal_unit_lf (c : JobConfig) : ℚ := (removal_pair c).1

/-- `removal_total` component of src/app.py 644. -/
def removal_total (c : JobConfig) : ℚ := (removal_pair c).2

/-- `sell_total_main = final_price_per_lf * req_ft if req_ft>0 else 0.0`
(src/app.py 646).  Note the multiplication is by `req_ft`, the
waste-inflated footage. -/
def sell_total_main (c : JobConfig) : ℚ :=
  if 0 < req_ft c then (select c).final_price_per_lf * req_ft c else 0

/-- `caps_revenue = caps_unit_cost * caps_qty if caps_qty>0 else 0.0`
(src/app.py 647). -/
def caps_revenue (c : JobConfig) (ps : String → Option ℚ) : ℚ :=
  if 0 < caps_qty c then caps_unit_cost c ps * (caps_qty c : ℚ) else 0

/-- `removal_revenue` (src/app.py 648). -/
def removal_revenue (c : JobConfig) : ℚ :=
  if (select c).removal_selected = true ∧ 0 < req_ft c then removal_total c else 0

/-- `customer_subtotal_display` (src/app.py 649). -/
def customer_subtotal_display (c : JobConfig) (ps : String → Option ℚ) : ℚ :=
  sell_total_main c + caps_revenue c ps + removal_revenue c

/-- `customer_sales_tax = 0.0 if remove_tax_flag else customer_subtotal_display * SALES_TAX`
(src/app.py 650). -/
def customer_sales_tax (c : JobConfig) (ps : String → Option ℚ) : ℚ :=
  if (select c).remove_tax_flag then 0 else customer_subtotal_display c ps * SALES_TAX

/-- `customer_total = customer_subtotal_display + customer_sales_tax`
(src/app.py 651). -/
def customer_total (c : JobConfig) (ps : String → Option ℚ) : ℚ :=
  customer_subtotal_display c ps + customer_sales_tax c ps

/-- `internal_total_cost = mat_sub_all + tax_all + labor_cost + fuel`
(src/app.py 653). -/
def internal_total_cost (c : JobConfig) (ps : String → Option ℚ) : ℚ :=
  mat_sub_all c ps + tax_all c ps + labor_cost c + fuel c

/-- `subtotal_for_margin = sell_total_main + caps_revenue` (src/app.py 654). -/
def subtotal_for_margin (c : JobConfig) (ps : String → Option ℚ) : ℚ :=
  sell_total_main c + caps_revenue c ps

/-- `gross_profit = subtotal_for_margin - internal_total_cost` (src/app.py 655). -/
def gross_profit (c : JobConfig) (ps : String → Option ℚ) : ℚ :=
  subtotal_for_margin c ps - internal_total_cost c ps

/-- `profit_margin` (src/app.py 656). -/
def profit_margin (c : JobConfig) (ps : String → Option ℚ) : ℚ :=
  if 0 < subtotal_for_margin c ps then gross_profit c ps / subtotal_for_margin c ps else 0

/-- A customer line row minus the random `_id` (src/app.py 712-726). -/
structure LineData where
  qty : ℤ
  item : String
  unit : String
  priceEach : ℚ
  lineTotal : ℚ
deriving DecidableEq, Repr

/-- A customer line row as emitted, `_id` included. -/
structure LineItem where
  rowId : String
  qty : ℤ
  item : String
  unit : String
  priceEach : ℚ
  lineTotal : ℚ
deriving DecidableEq, Repr

/-- Attach a row id. -/
def LineData.withId (d : LineData) (i : String) : LineItem :=
  ⟨i, d.qty, d.item, d.unit, d.priceEach, d.lineTotal⟩

/-- Drop the row id. -/
def LineItem.strip (l : LineItem) : LineData :=
  ⟨l.qty, l.item, l.unit, l.priceEach, l.lineTotal⟩

/-- `customer_qty = int(total_lf or 0)` (src/app.py 711) — `total_lf` was
already truncated at line 567. -/
def customer_qty (c : JobConfig) : ℤ := total_lf_i c

/-- The `item_name` chosen in src/app.py 713-721. -/
def item_name (c : JobConfig) : String :=
  match c.cat with
  | .siltFence =>
    match c.sf_gauge with
    | .unreinforced => "Unreinforced Silt Fence (Wood Stakes)"
    | .gauge14 => "14 Gauge Silt Fence"
    | .gauge12_5 => "12.5 Gauge Silt Fence"
  | .orangeFence => "Plastic Orange Fence"

/-- The rows appended to `lines` (src/app.py 710-726), in order, before the
`_id` assignment. -/
def line_data (c : JobConfig) (ps : String → Option ℚ) : List LineData :=
  (if 0 < customer_qty c then
    [⟨customer_qty c, item_name c, "LF", (select c).final_price_per_lf,
      (select c).final_price_per_lf * (customer_qty c : ℚ)⟩]
   else [])
  ++ (if 0 < caps_qty c then
    [⟨caps_qty c, "Safety Caps", "EA", caps_unit_cost c ps,
      caps_unit_cost c ps * (caps_qty c : ℚ)⟩]
   else [])
  ++ (if (select c).removal_selected = true ∧ 0 < req_ft c then
    [⟨customer_qty c, "Fence Removal", "LF", removal_unit_lf c,
      removal_unit_lf c * (customer_qty c : ℚ)⟩]
   else [])

/-- Attach the `str(uuid.uuid4())` ids in emission order, drawing from the
supply `u`. -/
def assignIds (u : ℕ → String) : ℕ → List LineData → List LineItem
  | _, [] => []
  | i, d :: ds => d.withId (u i) :: assignIds u (i + 1) ds

/-- The emitted `lines` list (src/app.py 710-726). -/
def lines (c : JobConfig) (ps : String → Option ℚ) (u : ℕ → String) : List LineItem :=
  assignIds u 0 (line_data c ps)

/-- `grand_subtotal = sum(float(l["Line Total"]) for l in lines)` (src/app.py 729). -/
def grand_subtotal (c : JobConfig) (ps : String → Option ℚ) : ℚ :=
  ((line_data c ps).map (fun l => l.lineTotal)).sum

/-- `tax_rate = 0.0 if remove_tax_flag else SALES_TAX` (src/app.py 730). -/
def tax_rate_out (c : JobConfig) : ℚ :=
  if (select c).remove_tax_flag then 0 else SALES_TAX

/-- `sales_tax_total = grand_subtotal * tax_rate` (src/app.py 731). -/
def sales_tax_total (c : JobConfig) (ps : String → Option ℚ) : ℚ :=
  grand_subtotal c ps * tax_rate_out c

/-- `grand_total = grand_subtotal + sales_tax_total` (src/app.py 732). -/
def grand_total (c : JobConfig) (ps : String → Option ℚ) : ℚ :=
  grand_subtotal c ps + sales_tax_total c ps

/-- The numeric output bundle of one `compute` call. -/
structure EstimateResult where
  req_ft : ℚ
  posts : ℤ
  rolls : ℤ
  caps_qty : ℤ
  caps_cost : ℚ
  fabric_cost : ℚ
  hardware_cost : ℚ
  mat_sub : ℚ
  tax : ℚ
  mat_sub_all : ℚ
  tax_all : ℚ
  project_days : ℚ
  labor_cost : ℚ
  billing_days : ℤ
  fuel : ℚ
  removal_unit_lf : ℚ
  removal_total : ℚ
  sell_total_main : ℚ
  caps_revenue : ℚ
  removal_revenue : ℚ
  customer_subtotal_display : ℚ
  customer_sales_tax : ℚ
  customer_total : ℚ
  internal_total_cost : ℚ
  subtotal_for_margin : ℚ
  gross_profit : ℚ
  profit_margin : ℚ
  lines : List LineItem
  grand_subtotal : ℚ
  tax_rate : ℚ
  sales_tax_total : ℚ
  grand_total : ℚ
  cost_per_lf : ℚ
  post_unit_cost : ℚ
  caps_unit_cost : ℚ
  final_price_per_lf : ℚ
  remove_tax_flag : Bool
  removal_selected : Bool
deriving DecidableEq

/-- The numeric core of the `compute` callback (src/app.py 563-732).
`ps` is the pricebook, `u` the uuid supply for the emitted rows. -/
def compute (c : JobConfig) (ps : String → Option ℚ) (u : ℕ → String) : EstimateResult :=
  { req_ft := req_ft c
    posts := posts c
    rolls := rolls c
    caps_qty := caps_qty c
    caps_cost := caps_cost c ps
    fabric_cost := (mat c ps).fabric_cost
    hardware_cost := (mat c ps).hardware_cost
    mat_sub := (mat c ps).subtotal
    tax := (mat c ps).tax
    mat_sub_all := mat_sub_all c ps
    tax_all := tax_all c ps
    project_days := project_days c
    labor_cost := labor_cost c
    billing_days := billing_days c
    fuel := fuel c
    removal_unit_lf := removal_unit_lf c
    removal_total := removal_total c
    sell_total_main := sell_total_main c
    caps_revenue := caps_revenue c ps
    removal_revenue := removal_revenue c
    customer_subtotal_display := customer_subtotal_display c ps
    customer_sales_tax := customer_sales_tax c ps
    customer_total := customer_total c ps
    internal_total_cost := internal_total_cost c ps
    subtotal_for_margin := subtotal_for_margin c ps
    gross_profit := gross_profit c ps
    profit_margin := profit_margin c ps
    lines := lines c ps u
    grand_subtotal := grand_subtotal c ps
    tax_rate := tax_rate_out c
    sales_tax_total := sales_tax_total c ps
    grand_total := grand_total c ps
    cost_per_lf := cost_per_lf c ps
    post_unit_cost := post_unit_cost c ps
    caps_unit_cost := caps_unit_cost c ps
    final_price_per_lf := (select c).final_price_per_lf
    remove_tax_flag := (select c).remove_tax_flag
    removal_selected := (select c).removal_selected }

/-- Removal pricing as the specification words it: unit price is
`max(0.40 * sellPricePerFoot, floor)` with the tier floor (1.15 under 800 ft,
0.90 under 2000 ft, linear interpolation from 0.90 down to 0.80 across
2000-10000 ft, 0.80 from 10000 ft), total is `unitPrice * requiredFeet`,
and when that product is below 800 the total is exactly 800 with the unit
price recomputed as `800 / requiredFeet`.  Stated independently of
`calc_removal` to compare the two. -/
def removalPriceSpec (rf sell : ℚ) : ℚ × ℚ :=
  let floorPrice : ℚ :=
    if rf < 800 then 115/100
    else if rf < 2000 then 90/100
    else if rf < 10000 then 90/100 + (rf - 2000) * ((80/100 - 90/100) / (10000 - 2000))
    else 80/100
  let unit := max ((40/100) * sell) floorPrice
  let total := unit * rf
  if total < 800 then (800 / rf, 800) else (unit, total)

/-- All quantity and monetary fields of a result are non-negative (the
profit fields, which may legitimately be negative, are not monetary
line/total/price quantities and are excluded). -/
def NonnegResult (r : EstimateResult) : Prop :=
  0 ≤ r.req_ft ∧ 0 ≤ r.posts ∧ 0 ≤ r.rolls ∧ 0 ≤ r.caps_qty ∧ 0 ≤ r.caps_cost
  ∧ 0 ≤ r.fabric_cost ∧ 0 ≤ r.hardware_cost ∧ 0 ≤ r.mat_sub ∧ 0 ≤ r.tax
  ∧ 0 ≤ r.mat_sub_all ∧ 0 ≤ r.tax_all ∧ 0 ≤ r.project_days ∧ 0 ≤ r.labor_cost
  ∧ 0 ≤ r.billing_days ∧ 0 ≤ r.fuel ∧ 0 ≤ r.removal_unit_lf ∧ 0 ≤ r.removal_total
  ∧ 0 ≤ r.sell_total_main ∧ 0 ≤ r.caps_revenue ∧ 0 ≤ r.removal_revenue
  ∧ 0 ≤ r.customer_subtotal_display ∧ 0 ≤ r.customer_sales_tax ∧ 0 ≤ r.customer_total
  ∧ 0 ≤ r.internal_total_cost ∧ 0 ≤ r.grand_subtotal ∧ 0 ≤ r.tax_rate
  ∧ 0 ≤ r.sales_tax_total ∧ 0 ≤ r.grand_total ∧ 0 ≤ r.cost_per_lf
  ∧ 0 ≤ r.post_unit_cost ∧ 0 ≤ r.caps_unit_cost ∧ 0 ≤ r.final_price_per_lf
  ∧ ∀ l ∈ r.lines, 0 ≤ l.qty ∧ 0 ≤ l.priceEach ∧ 0 ≤ l.lineTotal

/-- The spec's first scenario: Silt Fence, 14-gauge, 1000 ft requested,
2% waste, 8 ft spacing, $2.50/ft sell price, no caps, no removal, tax kept. -/
def cfg1 : JobConfig :=
  { cat := .siltFence, total_lf := 1000, waste_pct := 2, sf_gauge := .gauge14,
    sf_spacing := 8, sf_price_lf := 5/2, sf_caps := false, sf_cap_type := some .osha,
    sf_removal := false, sf_remove_tax := false, orange_duty := .lightDuty,
    orange_spacing := 10, orange_price_lf := 5/2, orange_removal := false,
    orange_remove_tax := false }

/-- `cfg1` with the remove-sales-tax box ticked. -/
def cfg3 : JobConfig := { cfg1 with sf_remove_tax := true }

/-- A config whose operator-entered sell price is negative. -/
def cfg7 : JobConfig := { cfg1 with total_lf := 100, waste_pct := 0, sf_price_lf := -1 }

/-- A small job used to compare two engine calls. -/
def cfg8 : JobConfig := { cfg1 with total_lf := 100, waste_pct := 0 }

/-- A silt-fence config with safety caps selected (OSHA type). -/
def cfg9 : JobConfig := { cfg1 with sf_caps := true }

/-- `cfg1` with a fractional waste entry of 2.5%. -/
def cfg10 : JobConfig := { cfg1 with waste_pct := 5/2 }

/-- An absent pricebook: every lookup falls back to the default. -/
def psNone : String → Option ℚ := fun _ => none

/-- A constant uuid supply. -/
def u0 : ℕ → String := fun _ => ""

/-- The uuid supply of a first engine call. -/
def uA : ℕ → String := fun _ => "a"

/-- The uuid supply of a second engine call: `uuid.uuid4()` draws fresh
random identifiers, so the two calls see different supplies. -/
def uB : ℕ → String := fun _ => "b"

end DOE

namespace DOE

lemma req_ft_nonneg (c : JobConfig) : 0 ≤ req_ft c := by
  simp only [req_ft, required_footage]
  have h2 : (0:ℚ) ≤ max 0 ((waste_pct_i c : ℤ) : ℚ) := le_max_left _ _
  have h3 : (0:ℚ) ≤ 1 + max 0 ((waste_pct_i c : ℤ) : ℚ) / 100 := by linarith
  exact mul_nonneg (le_max_left _ _) h3

lemma posts_needed_nonneg (rf : ℚ) (sp : ℤ) : 0 ≤ posts_needed rf sp := by
  simp only [posts_needed]
  have hm : (0:ℚ) < ((max 1 sp : ℤ) : ℚ) := by
    have : (1:ℤ) ≤ max 1 sp := le_max_left _ _
    exact_mod_cast lt_of_lt_of_le Int.zero_lt_one this
  have hceil : 0 ≤ ⌈(max 0 rf) / ((max 1 sp : ℤ) : ℚ)⌉ :=
    Int.ceil_nonneg (div_nonneg (le_max_left _ _) hm.le)
  split_ifs <;> omega

lemma rolls_needed_nonneg (rf : ℚ) (rl : ℤ) : 0 ≤ rolls_needed rf rl := by
  simp only [rolls_needed]
  have hm : (0:ℚ) < ((max 1 (if rl = 0 then 100 else rl) : ℤ) : ℚ) := by
    have : (1:ℤ) ≤ max 1 (if rl = 0 then 100 else rl) := le_max_left _ _
    exact_mod_cast lt_of_lt_of_le Int.zero_lt_one this
  have hceil : 0 ≤ ⌈(max 0 rf) / ((max 1 (if rl = 0 then 100 else rl) : ℤ) : ℚ)⌉ :=
    Int.ceil_nonneg (div_nonneg (le_max_left _ _) hm.le)
  split_ifs <;> simp_all

lemma posts_nonneg (c : JobConfig) : 0 ≤ posts c := posts_needed_nonneg _ _

lemma caps_qty_nonneg (c : JobConfig) : 0 ≤ caps_qty c := by
  simp only [caps_qty]
  split_ifs
  · exact posts_nonneg c
  · exact le_refl 0

lemma SALES_TAX_nonneg : (0:ℚ) ≤ SALES_TAX := by norm_num [SALES_TAX]

lemma resolve_price_nonneg (ps : String → Option ℚ) (sku : String) (d : ℚ)
    (hps : ∀ s v, ps s = some v → 0 ≤ v) (hd : 0 ≤ d) :
    0 ≤ resolve_price ps sku d := by
  simp only [resolve_price, get_price]
  cases hv : ps sku with
  | none => simpa [hv] using hd
  | some v =>
    simp only [hv, Option.getD_some]
    split_ifs
    · exact hd
    · exact hps _ _ hv

lemma fabric_default_nonneg (c : JobConfig) : 0 ≤ (select c).fabric_default := by
  cases hc : c.cat <;> cases hg : c.sf_gauge <;> cases hd : c.orange_duty <;>
    simp [select, hc, hg, hd] <;> norm_num

lemma post_default_nonneg (c : JobConfig) : 0 ≤ (select c).post_default := by
  cases hc : c.cat <;> cases hg : c.sf_gauge <;> cases hd : c.orange_duty <;>
    simp [select, hc, hg, hd] <;> norm_num

lemma final_price_nonneg (c : JobConfig) (hsf : 0 ≤ c.sf_price_lf)
    (hor : 0 ≤ c.orange_price_lf) : 0 ≤ (select c).final_price_per_lf := by
  cases hc : c.cat <;> simp [select, hc] <;> split_ifs <;>
    first | assumption | norm_num

lemma cost_per_lf_nonneg (c : JobConfig) (ps : String → Option ℚ)
    (hps : ∀ s v, ps s = some v → 0 ≤ v) : 0 ≤ cost_per_lf c ps :=
  resolve_price_nonneg _ _ _ hps (fabric_default_nonneg c)

lemma post_unit_cost_nonneg (c : JobConfig) (ps : String → Option ℚ)
    (hps : ∀ s v, ps s = some v → 0 ≤ v) : 0 ≤ post_unit_cost c ps :=
  resolve_price_nonneg _ _ _ hps (post_default_nonneg c)

lemma caps_unit_cost_nonneg (c : JobConfig) (ps : String → Option ℚ)
    (hps : ∀ s v, ps s = some v → 0 ≤ v) : 0 ≤ caps_unit_cost c ps := by
  simp only [caps_unit_cost]
  split_ifs
  · cases hct : (select c).cap_type with
    | none => simp
    | some t =>
      cases t <;> simp [hct] <;> exact resolve_price_nonneg _ _ _ hps (by norm_num)
  · exact le_refl 0

end DOE

namespace DOE

lemma removal_floor_antitone {a b : ℚ} (h : a ≤ b) : removal_floor b ≤ removal_floor a := by
  simp only [removal_floor]
  split_ifs <;> linarith

lemma removal_floor_ge (rf : ℚ) : 4/5 ≤ removal_floor rf := by
  simp only [removal_floor]
  split_ifs <;> linarith

lemma calc_removal_fst_nonneg (rf sell : ℚ) : 0 ≤ (calc_removal rf sell).1 := by
  simp only [calc_removal]
  split_ifs with h1 h2
  · norm_num
  · push_neg at h1
    simp only []
    positivity
  · have := removal_floor_ge rf
    have h3 : (4:ℚ)/5 ≤ max (sell * (40/100)) (removal_floor rf) :=
      le_trans this (le_max_right _ _)
    simp only []
    linarith

lemma calc_removal_snd_nonneg (rf sell : ℚ) : 0 ≤ (calc_removal rf sell).2 := by
  simp only [calc_removal]
  split_ifs with h1 h2
  · norm_num
  · norm_num
  · push_neg at h1
    have := removal_floor_ge rf
    have h3 : (0:ℚ) ≤ max (sell * (40/100)) (removal_floor rf) :=
      le_trans (by norm_num) (le_trans this (le_max_right _ _))
    simp only []
    exact mul_nonneg h3 (le_of_lt h1)

lemma removal_unit_lf_nonneg (c : JobConfig) : 0 ≤ removal_unit_lf c := by
  simp only [removal_unit_lf, removal_pair]
  split_ifs
  · exact calc_removal_fst_nonneg _ _
  · norm_num

lemma removal_total_nonneg (c : JobConfig) : 0 ≤ removal_total c := by
  simp only [removal_total, removal_pair]
  split_ifs
  · exact calc_removal_snd_nonneg _ _
  · norm_num

lemma customer_qty_pos_of_req_ft (c : JobConfig) (h : 0 < req_ft c) :
    0 < customer_qty c := by
  simp only [req_ft, required_footage] at h
  simp only [customer_qty]
  by_contra hc
  push_neg at hc
  have hcast : ((total_lf_i c : ℤ) : ℚ) ≤ 0 := by exact_mod_cast hc
  rw [max_eq_left hcast] at h
  simp at h

lemma strip_withId (d : LineData) (s : String) : (d.withId s).strip = d := rfl

lemma mem_assignIds_strip {u : ℕ → String} :
    ∀ (ds : List LineData) (i : ℕ) (l : LineItem),
      l ∈ assignIds u i ds → l.strip ∈ ds := by
  intro ds
  induction ds with
  | nil => intro i l h; simp [assignIds] at h
  | cons d ds ih =>
    intro i l h
    rcases List.mem_cons.mp h with h | h
    · subst h
      exact List.mem_cons_self _ _
    · exact List.mem_cons_of_mem _ (ih (i+1) l h)

lemma assignIds_map_strip (u : ℕ → String) :
    ∀ (ds : List LineData) (i : ℕ),
      (assignIds u i ds).map LineItem.strip = ds := by
  intro ds
  induction ds with
  | nil => intro i; rfl
  | cons d ds ih => intro i; simp [assignIds, strip_withId, ih (i+1)]

end DOE

namespace DOE

lemma line_data_fields_nonneg (c : JobConfig) (ps : String → Option ℚ)
    (hsf : 0 ≤ c.sf_price_lf) (hor : 0 ≤ c.orange_price_lf)
    (hps : ∀ s v, ps s = some v → 0 ≤ v) :
    ∀ l ∈ line_data c ps, 0 ≤ l.qty ∧ 0 ≤ l.priceEach ∧ 0 ≤ l.lineTotal := by
  intro l hl
  simp only [line_data, List.mem_append] at hl
  have hprice := final_price_nonneg c hsf hor
  rcases hl with (hl | hl) | hl
  · by_cases hq : 0 < customer_qty c
    · rw [if_pos hq] at hl
      simp only [List.mem_singleton] at hl
      subst hl
      refine ⟨hq.le, hprice, mul_nonneg hprice ?_⟩
      exact_mod_cast hq.le
    · rw [if_neg hq] at hl
      simp at hl
  · by_cases hq : 0 < caps_qty c
    · rw [if_pos hq] at hl
      simp only [List.mem_singleton] at hl
      subst hl
      have hcu := caps_unit_cost_nonneg c ps hps
      refine ⟨hq.le, hcu, mul_nonneg hcu ?_⟩
      exact_mod_cast hq.le
    · rw [if_neg hq] at hl
      simp at hl
  · by_cases hq : (select c).removal_selected = true ∧ 0 < req_ft c
    · rw [if_pos hq] at hl
      simp only [List.mem_singleton] at hl
      subst hl
      have hcq := customer_qty_pos_of_req_ft c hq.2
      have hru := removal_unit_lf_nonneg c
      refine ⟨hcq.le, hru, mul_nonneg hru ?_⟩
      exact_mod_cast hcq.le
    · rw [if_neg hq] at hl
      simp at hl

lemma grand_subtotal_nonneg (c : JobConfig) (ps : String → Option ℚ)
    (hsf : 0 ≤ c.sf_price_lf) (hor : 0 ≤ c.orange_price_lf)
    (hps : ∀ s v, ps s = some v → 0 ≤ v) :
    0 ≤ grand_subtotal c ps := by
  simp only [grand_subtotal]
  apply List.sum_nonneg
  intro x hx
  rcases List.mem_map.mp hx with ⟨l, hl, rfl⟩
  exact (line_data_fields_nonneg c ps hsf hor hps l hl).2.2

end DOE

namespace DOE

/-- C6: for every fixed sellPricePerFoot >= 0, the removal unit price returned
by the removal calculation is non-increasing as requiredFeet grows over
(0, infinity), in particular across the tier boundaries at 800, 2000 and
10000 feet and across the $800 minimum-charge region where the unit price
is 800/requiredFeet. -/
theorem C6_removal_unit_antitone (sell rf1 rf2 : ℚ) (_hs : 0 ≤ sell)
    (h1 : 0 < rf1) (h12 : rf1 ≤ rf2) :
    (calc_removal rf2 sell).1 ≤ (calc_removal rf1 sell).1 := by
  have h2 : 0 < rf2 := lt_of_lt_of_le h1 h12
  simp only [calc_removal, if_neg (not_le.mpr h1), if_neg (not_le.mpr h2)]
  set v1 := max (sell * (40/100)) (removal_floor rf1) with hv1def
  set v2 := max (sell * (40/100)) (removal_floor rf2) with hv2def
  have hv : v2 ≤ v1 := max_le_max (le_refl _) (removal_floor_antitone h12)
  have hv1pos : 0 < v1 :=
    lt_of_lt_of_le (by norm_num) (le_trans (removal_floor_ge rf1) (le_max_right _ _))
  by_cases hA : v2 * rf2 < 800 <;> by_cases hB : v1 * rf1 < 800
  · rw [if_pos hA, if_pos hB]
    show (800:ℚ)/rf2 ≤ 800/rf1
    rw [div_le_div_iff₀ h2 h1]
    nlinarith
  · rw [if_pos hA, if_neg hB]
    show (800:ℚ)/rf2 ≤ v1
    rw [div_le_iff₀ h2]
    push_neg at hB
    nlinarith [mul_le_mul_of_nonneg_left h12 hv1pos.le]
  · rw [if_neg hA, if_pos hB]
    show v2 ≤ (800:ℚ)/rf1
    rw [le_div_iff₀ h1]
    have : v2 * rf1 ≤ v1 * rf1 := mul_le_mul_of_nonneg_right hv h1.le
    linarith
  · rw [if_neg hA, if_neg hB]
    exact hv

/-- C2: the removal calculation agrees with the spec formula (unit price
max(0.40*sell, tier floor), total unit*requiredFeet, $800 minimum with the
unit recomputed as 800/requiredFeet) for every requiredFeet > 0 and
sellPricePerFoot >= 0; and at 500 ft, sell 2.50 it returns
unit 1.60, total 800. -/
theorem C2_removal_matches_spec :
    (∀ rf sell : ℚ, 0 < rf → 0 ≤ sell → calc_removal rf sell = removalPriceSpec rf sell)
    ∧ calc_removal 500 (5/2) = (8/5, 800) := by
  constructor
  · intro rf sell h0 hs
    simp only [calc_removal, removalPriceSpec, if_neg (not_le.mpr h0)]
    have hbase : sell * (40/100) = (40/100) * sell := mul_comm _ _
    have hfl : removal_floor rf =
        (if rf < 800 then (115/100 : ℚ)
         else if rf < 2000 then 90/100
         else if rf < 10000 then 90/100 + (rf - 2000) * ((80/100 - 90/100) / (10000 - 2000))
         else 80/100) := by
      simp only [removal_floor]
      split_ifs <;> ring
    rw [hbase, hfl]
  · have h1 : ¬ ((500:ℚ) ≤ 0) := by norm_num
    have h2 : ((500:ℚ) < 800) := by norm_num
    simp only [calc_removal, removal_floor, if_neg h1, if_pos h2]
    norm_num [max_def]

end DOE

namespace DOE

/-- C1: at the spec scenario (1000 ft requested, 2% waste, $2.50/ft) the
engine's customer-facing subtotal panel computes main revenue as
sellPricePerFoot * requiredFeet = 2550, not sellPricePerFoot *
totalRequestedFeet = 2500 as the claim states; the emitted line items do
total 2500, so the two customer-facing totals of one call disagree. -/
theorem C1_main_revenue_divergence :
    (compute cfg1 psNone u0).sell_total_main = 2550
    ∧ (compute cfg1 psNone u0).customer_subtotal_display = 2550
    ∧ (compute cfg1 psNone u0).final_price_per_lf * 1000 = 2500
    ∧ (compute cfg1 psNone u0).grand_subtotal = 2500
    ∧ (compute cfg1 psNone u0).customer_total = 22083/8
    ∧ (compute cfg1 psNone u0).grand_total = 10825/4
    ∧ (compute cfg1 psNone u0).customer_total ≠ (compute cfg1 psNone u0).grand_total := by
  norm_num [compute, cfg1, psNone, u0, req_ft, required_footage, total_lf_i,
    waste_pct_i, pyInt, select, sell_total_main, caps_revenue, removal_revenue,
    caps_qty, caps_on, posts, posts_needed, caps_unit_cost,
    removal_pair, removal_unit_lf, removal_total, calc_removal, removal_floor,
    customer_subtotal_display, customer_sales_tax, customer_total,
    grand_subtotal, line_data, customer_qty, item_name, tax_rate_out,
    sales_tax_total, grand_total, SALES_TAX, max_def]

end DOE

namespace DOE

/-- C3: grandTotal = subtotal + salesTax on both total paths; the internal
material tax is mat_sub_all * SALES_TAX regardless of the flag; and when
the remove-sales-tax flag is set both customer-facing tax lines are 0 and
both grand totals equal their subtotals. -/
theorem C3_totals_and_tax_suppression (c : JobConfig) (ps : String → Option ℚ)
    (u : ℕ → String) :
    (compute c ps u).grand_total
        = (compute c ps u).grand_subtotal + (compute c ps u).sales_tax_total
    ∧ (compute c ps u).customer_total
        = (compute c ps u).customer_subtotal_display + (compute c ps u).customer_sales_tax
    ∧ (compute c ps u).tax_all = (compute c ps u).mat_sub_all * SALES_TAX
    ∧ ((compute c ps u).remove_tax_flag = true →
        (compute c ps u).sales_tax_total = 0
        ∧ (compute c ps u).customer_sales_tax = 0
        ∧ (compute c ps u).grand_total = (compute c ps u).grand_subtotal
        ∧ (compute c ps u).customer_total = (compute c ps u).customer_subtotal_display) := by
  refine ⟨rfl, rfl, ?_, fun h => ?_⟩
  · show tax_all c ps = mat_sub_all c ps * SALES_TAX
    simp only [tax_all, mat_sub_all, mat, materials_breakdown]
    ring
  · have h' : (select c).remove_tax_flag = true := h
    refine ⟨?_, ?_, ?_, ?_⟩ <;>
      simp [compute, sales_tax_total, tax_rate_out, customer_sales_tax,
        grand_total, customer_total, h']

/-- Witness for C3 at a concrete tax-suppressed configuration. -/
theorem C3_witness :
    (compute cfg3 psNone u0).sales_tax_total = 0
    ∧ (compute cfg3 psNone u0).customer_sales_tax = 0
    ∧ (compute cfg3 psNone u0).grand_total = (compute cfg3 psNone u0).grand_subtotal
    ∧ (compute cfg3 psNone u0).customer_total
        = (compute cfg3 psNone u0).customer_subtotal_display :=
  (C3_totals_and_tax_suppression cfg3 psNone u0).2.2.2 rfl

/-- C4 fails as stated: at totalFeet = 0, wastePercent = 5 the result equals
the input although the waste is non-zero. -/
theorem C4_counterexample :
    required_footage 0 5 = (0:ℚ) ∧ (5:ℚ) ≠ 0
    ∧ ¬ (required_footage 0 5 = 0 ↔ (5:ℚ) = 0) := by
  norm_num [required_footage]

/-- C4 amended: requiredFootage equals max(0,totalFeet)*(1+max(0,waste)/100)
and, for totalFeet >= 0 and waste >= 0, is >= totalFeet with equality iff
waste = 0 or totalFeet = 0. -/
theorem C4_amended (t w : ℚ) (ht : 0 ≤ t) (hw : 0 ≤ w) :
    required_footage t w = max 0 t * (1 + max 0 w / 100)
    ∧ t ≤ required_footage t w
    ∧ (required_footage t w = t ↔ (w = 0 ∨ t = 0)) := by
  have hmt : max 0 t = t := max_eq_right ht
  have hmw : max 0 w = w := max_eq_right hw
  refine ⟨rfl, ?_, ?_⟩
  · simp only [required_footage, hmt, hmw]
    nlinarith [mul_nonneg ht hw]
  · simp only [required_footage, hmt, hmw]
    constructor
    · intro h
      have htw : t * w = 0 := by nlinarith
      rcases mul_eq_zero.mp htw with h0 | h0
      · exact Or.inr h0
      · exact Or.inl h0
    · rintro (h0 | h0) <;> rw [h0] <;> ring

/-- Witness for C4_amended at totalFeet 3, waste 2. -/
theorem C4_witness :
    required_footage 3 2 = max 0 3 * (1 + max 0 2 / 100)
    ∧ (3:ℚ) ≤ required_footage 3 2
    ∧ (required_footage 3 2 = 3 ↔ ((2:ℚ) = 0 ∨ (3:ℚ) = 0)) :=
  C4_amended 3 2 (by norm_num) (by norm_num)

end DOE

namespace DOE

lemma posts_needed_of_pos (rf : ℚ) (sp : ℤ) (h1 : 1 ≤ sp) (hrf : 0 < rf) :
    posts_needed rf sp = ⌈rf / ((sp : ℤ) : ℚ)⌉ + 1 := by
  simp only [posts_needed, max_eq_right h1, max_eq_right hrf.le, if_pos hrf]

/-- C5: postsNeeded(rf, sp) = ceil(rf/sp) + 1 for rf > 0 and sp in
{3,4,6,8,10}; postsNeeded(0, sp) = 0; spacing below 1 behaves as spacing 1;
and for rf >= 0 the count is 0 iff rf = 0. -/
theorem C5_posts_needed (rf : ℚ) (sp : ℤ) :
    (0 < rf → sp ∈ ([3, 4, 6, 8, 10] : List ℤ) →
      posts_needed rf sp = ⌈rf / ((sp : ℤ) : ℚ)⌉ + 1)
    ∧ posts_needed 0 sp = 0
    ∧ (sp < 1 → posts_needed rf sp = posts_needed rf 1)
    ∧ (0 ≤ rf → (posts_needed rf sp = 0 ↔ rf = 0)) := by
  refine ⟨?_, ?_, ?_, ?_⟩
  · intro hrf hsp
    have h1 : (1:ℤ) ≤ sp := by fin_cases hsp <;> norm_num
    exact posts_needed_of_pos rf sp h1 hrf
  · simp [posts_needed]
  · intro hsp
    simp only [posts_needed, max_eq_left hsp.le, max_self]
  · intro hrf
    constructor
    · intro h
      by_contra hne
      have hpos : 0 < rf := lt_of_le_of_ne hrf (Ne.symm hne)
      have hm : (0:ℚ) < ((max 1 sp : ℤ) : ℚ) := by
        have : (1:ℤ) ≤ max 1 sp := le_max_left _ _
        exact_mod_cast lt_of_lt_of_le Int.zero_lt_one this
      have hceil : 0 < ⌈(max 0 rf) / ((max 1 sp : ℤ) : ℚ)⌉ := by
        apply Int.ceil_pos.mpr
        rw [max_eq_right hrf]
        exact div_pos hpos hm
      simp only [posts_needed, max_eq_right hrf, if_pos hpos] at h
      rw [max_eq_right hrf] at hceil
      omega
    · intro h
      subst h
      simp [posts_needed]

/-- Witness for C5 at rf = 1020, spacing 8. -/
theorem C5_witness : posts_needed 1020 8 = ⌈(1020 : ℚ) / ((8:ℤ) : ℚ)⌉ + 1 :=
  (C5_posts_needed 1020 8).1 (by norm_num) (by decide)

/-- Witness for C6: the unit price at 3000 ft is at most the unit price at
500 ft for sell price 2.50. -/
theorem C6_witness :
    (calc_removal 3000 (5/2)).1 ≤ (calc_removal 500 (5/2)).1 :=
  C6_removal_unit_antitone (5/2) 500 3000 (by norm_num) (by norm_num) (by norm_num)

/-- Witness for C2: the refinement instantiated at 500 ft, sell 2.50. -/
theorem C2_witness : calc_removal 500 (5/2) = removalPriceSpec 500 (5/2) :=
  C2_removal_matches_spec.1 500 (5/2) (by norm_num) (by norm_num)

/-- C10: the engine truncates both entries to integers before computing
(int(total_lf or 0), int(waste_pct or 0)); with a 2.5% waste entry the
engine computes 2% (1020 ft on 1000 ft), not 2.5% (1025 ft). -/
theorem C10_entry_truncation :
    (∀ (c : JobConfig) (ps : String → Option ℚ) (u : ℕ → String),
      (compute c ps u).req_ft
        = required_footage ((pyInt c.total_lf : ℤ) : ℚ) ((pyInt c.waste_pct : ℤ) : ℚ))
    ∧ (compute cfg10 psNone u0).req_ft = 1020
    ∧ required_footage 1000 (5/2) = 1025
    ∧ (1020 : ℚ) ≠ 1025 := by
  refine ⟨fun c ps u => rfl, ?_, ?_, by norm_num⟩
  · norm_num [compute, cfg10, cfg1, req_ft, required_footage, total_lf_i,
      waste_pct_i, pyInt, max_def]
  · norm_num [required_footage, max_def]

end DOE

namespace DOE

lemma caps_on_iff (c : JobConfig) :
    caps_on c = true ↔
      (c.cat = Category.siltFence ∧ c.sf_caps = true
        ∧ c.sf_gauge ≠ SfGauge.unreinforced ∧ c.sf_cap_type.isSome = true) := by
  cases hc : c.cat <;> simp [caps_on, select, hc] <;> tauto

/-- C9: capCount > 0 implies silt fence, reinforced variant, caps selected;
capCount = postCount exactly when caps are selected and applicable
(silt fence, variant not Unreinforced, a cap type present), otherwise 0. -/
theorem C9_caps_invariant (c : JobConfig) (ps : String → Option ℚ) (u : ℕ → String) :
    (0 < (compute c ps u).caps_qty →
      c.cat = Category.siltFence ∧ c.sf_gauge ≠ SfGauge.unreinforced ∧ c.sf_caps = true)
    ∧ ((c.cat = Category.siltFence ∧ c.sf_caps = true
        ∧ c.sf_gauge ≠ SfGauge.unreinforced ∧ c.sf_cap_type.isSome = true) →
      (compute c ps u).caps_qty = (compute c ps u).posts)
    ∧ (¬ (c.cat = Category.siltFence ∧ c.sf_caps = true
        ∧ c.sf_gauge ≠ SfGauge.unreinforced ∧ c.sf_cap_type.isSome = true) →
      (compute c ps u).caps_qty = 0) := by
  refine ⟨?_, ?_, ?_⟩
  · intro h
    cases hon : caps_on c with
    | false =>
      exfalso
      have : (compute c ps u).caps_qty = 0 := by
        show caps_qty c = 0
        simp [caps_qty, hon]
      omega
    | true =>
      have := (caps_on_iff c).mp hon
      exact ⟨this.1, this.2.2.1, this.2.1⟩
  · intro h
    have hon : caps_on c = true := (caps_on_iff c).mpr h
    show caps_qty c = posts c
    simp [caps_qty, hon]
  · intro h
    cases hon : caps_on c with
    | true => exact absurd ((caps_on_iff c).mp hon) h
    | false =>
      show caps_qty c = 0
      simp [caps_qty, hon]

/-- Witness for C9 at a caps-selected silt-fence configuration. -/
theorem C9_witness :
    (compute cfg9 psNone u0).caps_qty = (compute cfg9 psNone u0).posts :=
  (C9_caps_invariant cfg9 psNone u0).2.1 ⟨rfl, rfl, by decide, rfl⟩

/-- C7 fails as stated: a negative operator-entered sell price is not
clamped, and the customer-facing subtotal, tax and totals all go negative. -/
theorem C7_counterexample :
    (compute cfg7 psNone u0).sell_total_main < 0
    ∧ (compute cfg7 psNone u0).customer_subtotal_display < 0
    ∧ (compute cfg7 psNone u0).customer_sales_tax < 0
    ∧ (compute cfg7 psNone u0).grand_subtotal < 0
    ∧ (compute cfg7 psNone u0).grand_total < 0 := by
  norm_num [compute, cfg7, cfg1, psNone, u0, req_ft, required_footage, total_lf_i,
    waste_pct_i, pyInt, select, sell_total_main, caps_revenue, removal_revenue,
    caps_qty, caps_on, posts, posts_needed, caps_unit_cost,
    removal_pair, removal_unit_lf, removal_total, calc_removal, removal_floor,
    customer_subtotal_display, customer_sales_tax, customer_total,
    grand_subtotal, line_data, customer_qty, item_name, tax_rate_out,
    sales_tax_total, grand_total, SALES_TAX, max_def]

end DOE

namespace DOE

/-- C7 amended: provided the operator-entered sell prices are non-negative
and the pricebook returns only non-negative values, every quantity and
monetary output of the engine is non-negative (the sell price itself is
not clamped by the engine, so this hypothesis cannot be dropped). -/
theorem C7_amended (c : JobConfig) (ps : String → Option ℚ) (u : ℕ → String)
    (hsf : 0 ≤ c.sf_price_lf) (hor : 0 ≤ c.orange_price_lf)
    (hps : ∀ s v, ps s = some v → 0 ≤ v) :
    NonnegResult (compute c ps u) := by
  have hreq := req_ft_nonneg c
  have hposts := posts_nonneg c
  have hrolls : 0 ≤ rolls c := rolls_needed_nonneg _ _
  have hcq := caps_qty_nonneg c
  have hcu := caps_unit_cost_nonneg c ps hps
  have hcc : 0 ≤ caps_cost c ps := mul_nonneg (by exact_mod_cast hcq) hcu
  have hfab : 0 ≤ (mat c ps).fabric_cost := by
    simp only [mat, materials_breakdown]
    exact mul_nonneg (le_max_left _ _) (le_max_left _ _)
  have hhard : 0 ≤ (mat c ps).hardware_cost := by
    simp only [mat, materials_breakdown]
    exact mul_nonneg (by exact_mod_cast le_max_left 0 (posts c)) (le_max_left _ _)
  have hsubeq : (mat c ps).subtotal = (mat c ps).fabric_cost + (mat c ps).hardware_cost := rfl
  have hsub : 0 ≤ (mat c ps).subtotal := by rw [hsubeq]; exact add_nonneg hfab hhard
  have htaxeq : (mat c ps).tax = (mat c ps).subtotal * SALES_TAX := rfl
  have htax : 0 ≤ (mat c ps).tax := by rw [htaxeq]; exact mul_nonneg hsub SALES_TAX_nonneg
  have hmsa : 0 ≤ mat_sub_all c ps := add_nonneg hsub hcc
  have htaxall : 0 ≤ tax_all c ps := add_nonneg htax (mul_nonneg hcc SALES_TAX_nonneg)
  have hpd : 0 ≤ project_days c := by
    simp only [project_days]
    split_ifs
    · exact div_nonneg hreq (by norm_num [PROD_LF_PER_DAY])
    · exact le_refl 0
  have hlab : 0 ≤ labor_cost c := mul_nonneg hpd (by norm_num [get_labor_per_day])
  have hbd : 0 ≤ billing_days c := by
    simp only [billing_days]
    split_ifs
    · exact Int.ceil_nonneg hpd
    · exact le_refl 0
  have hfuel : 0 ≤ fuel c := by
    simp only [fuel, fuel_cost]
    split_ifs
    · exact mul_nonneg (by norm_num) (by exact_mod_cast le_max_left 0 (billing_days c))
    · exact le_refl 0
  have hru := removal_unit_lf_nonneg c
  have hrt := removal_total_nonneg c
  have hfp := final_price_nonneg c hsf hor
  have hstm : 0 ≤ sell_total_main c := by
    simp only [sell_total_main]
    split_ifs
    · exact mul_nonneg hfp hreq
    · exact le_refl 0
  have hcr : 0 ≤ caps_revenue c ps := by
    simp only [caps_revenue]
    split_ifs with h
    · exact mul_nonneg hcu (by exact_mod_cast h.le)
    · exact le_refl 0
  have hrr : 0 ≤ removal_revenue c := by
    simp only [removal_revenue]
    split_ifs
    · exact hrt
    · exact le_refl 0
  have hcsd : 0 ≤ customer_subtotal_display c ps := add_nonneg (add_nonneg hstm hcr) hrr
  have hcst : 0 ≤ customer_sales_tax c ps := by
    simp only [customer_sales_tax]
    split_ifs
    · exact le_refl 0
    · exact mul_nonneg hcsd SALES_TAX_nonneg
  have hct : 0 ≤ customer_total c ps := add_nonneg hcsd hcst
  have hitc : 0 ≤ internal_total_cost c ps :=
    add_nonneg (add_nonneg (add_nonneg hmsa htaxall) hlab) hfuel
  have hgs := grand_subtotal_nonneg c ps hsf hor hps
  have htr : 0 ≤ tax_rate_out c := by
    simp only [tax_rate_out]
    split_ifs
    · exact le_refl 0
    · exact SALES_TAX_nonneg
  have hstt : 0 ≤ sales_tax_total c ps := mul_nonneg hgs htr
  have hgt : 0 ≤ grand_total c ps := add_nonneg hgs hstt
  have hcpl := cost_per_lf_nonneg c ps hps
  have hpuc := post_unit_cost_nonneg c ps hps
  have hlines : ∀ l ∈ lines c ps u, 0 ≤ l.qty ∧ 0 ≤ l.priceEach ∧ 0 ≤ l.lineTotal := by
    intro l hl
    have hmem := mem_assignIds_strip (line_data c ps) 0 l hl
    have h3 := line_data_fields_nonneg c ps hsf hor hps l.strip hmem
    exact ⟨h3.1, h3.2.1, h3.2.2⟩
  exact ⟨hreq, hposts, hrolls, hcq, hcc, hfab, hhard, hsub, htax, hmsa, htaxall,
    hpd, hlab, hbd, hfuel, hru, hrt, hstm, hcr, hrr, hcsd, hcst, hct, hitc,
    hgs, htr, hstt, hgt, hcpl, hpuc, hcu, hfp, hlines⟩

/-- Witness for C7 amended at the first spec scenario with defaults. -/
theorem C7_witness : NonnegResult (compute cfg1 psNone u0) :=
  C7_amended cfg1 psNone u0 (by norm_num [cfg1]) (by norm_num [cfg1])
    (fun _ _ h => Option.noConfusion h)

/-- C8 fails as stated: two calls on the same config and price source emit
line-item lists that differ (each call draws fresh uuid row ids). -/
theorem C8_counterexample :
    (compute cfg8 psNone uA).lines ≠ (compute cfg8 psNone uB).lines := by
  intro h
  have h1 : ((compute cfg8 psNone uA).lines.map (fun l => l.rowId))
      = ((compute cfg8 psNone uB).lines.map (fun l => l.rowId)) := by rw [h]
  have hA : ((compute cfg8 psNone uA).lines.map (fun l => l.rowId)) = ["a"] := by
    norm_num [compute, lines, line_data, assignIds, LineData.withId, cfg8, cfg1,
      psNone, uA, customer_qty, total_lf_i, pyInt, caps_qty, caps_on, select,
      req_ft, required_footage, waste_pct_i, item_name, max_def]
  have hB : ((compute cfg8 psNone uB).lines.map (fun l => l.rowId)) = ["b"] := by
    norm_num [compute, lines, line_data, assignIds, LineData.withId, cfg8, cfg1,
      psNone, uB, customer_qty, total_lf_i, pyInt, caps_qty, caps_on, select,
      req_ft, required_footage, waste_pct_i, item_name, max_def]
  rw [hA, hB] at h1
  simp at h1

/-- C8 amended: two calls with identical config and price source agree on
every output except the random row ids: the id-stripped line lists are
equal and all other fields are bit-identical. -/
theorem C8_amended (c : JobConfig) (ps : String → Option ℚ) (u1 u2 : ℕ → String) :
    (compute c ps u1).lines.map LineItem.strip
      = (compute c ps u2).lines.map LineItem.strip
    ∧ ({ compute c ps u1 with lines := [] } : EstimateResult)
      = { compute c ps u2 with lines := [] } := by
  constructor
  · show (assignIds u1 0 (line_data c ps)).map LineItem.strip
      = (assignIds u2 0 (line_data c ps)).map LineItem.strip
    rw [assignIds_map_strip, assignIds_map_strip]
  · rfl

end DOE
